import Mathlib

/-!
Verification of the analysis pipeline of the avc repository.

The Python source is shallowly embedded: times, rates and scores are
modelled as rationals, Python `round(x, 2)` as rational rounding to two
decimals, dictionaries as ordered association lists and external engine
calls (ASR, librosa, DeepFace, LLM) as explicit parameters or outcome
types.  Each definition mirrors one function of the source files
`analysis/audio_analysis.py`, `analysis/transcript_analysis.py`,
`analysis/video_analysis.py`, `analysis/pipeline.py` and `app.py`.
-/

namespace Avc

/-- Python `round(x, 2)`: round to two decimal places.  Modelled with
rational `round` (nearest integer); the tie-breaking rule (Python uses
half-even on binary floats) is never exercised by the theorems below. -/
def round2 (q : ℚ) : ℚ := ((round (q * 100) : ℤ) : ℚ) / 100

lemma round2_mono {a b : ℚ} (h : a ≤ b) : round2 a ≤ round2 b := by
  unfold round2
  have h1 : round (a * 100) ≤ round (b * 100) := by
    rw [round_eq, round_eq]
    exact Int.floor_le_floor (by linarith)
  have h2 : ((round (a * 100) : ℤ) : ℚ) ≤ ((round (b * 100) : ℤ) : ℚ) := by
    exact_mod_cast h1
  linarith

lemma round2_zero : round2 0 = 0 := by
  unfold round2
  norm_num

lemma round2_hundred : round2 100 = 100 := by
  unfold round2
  have : ((100 : ℚ) * 100) = ((10000 : ℕ) : ℚ) := by norm_num
  rw [this, round_natCast]
  norm_num

lemma round2_nonneg {q : ℚ} (h : 0 ≤ q) : 0 ≤ round2 q := by
  have := round2_mono h
  rwa [round2_zero] at this

lemma round2_le_hundred {q : ℚ} (h : q ≤ 100) : round2 q ≤ 100 := by
  have := round2_mono h
  rwa [round2_hundred] at this

lemma round2_bounds {q : ℚ} (h0 : 0 ≤ q) (h1 : q ≤ 100) :
    0 ≤ round2 q ∧ round2 q ≤ 100 :=
  ⟨round2_nonneg h0, round2_le_hundred h1⟩

lemma abs_round2_sub (q : ℚ) : |round2 q - q| ≤ 1 / 200 := by
  unfold round2
  have h := abs_sub_round (q * 100)
  have : ((round (q * 100) : ℤ) : ℚ) / 100 - q = (((round (q * 100) : ℤ) : ℚ) - q * 100) / 100 := by
    ring
  rw [this, abs_div]
  have h100 : |(100 : ℚ)| = 100 := by norm_num
  rw [h100]
  rw [abs_sub_comm] at h
  linarith [h]

/-! ### Tokenization: Python `text.lower().split()` -/

/-- Helper for whitespace splitting: accumulates the current run of
non-whitespace characters (in reverse) and splits at whitespace. -/
def splitWsAux : List Char → List Char → List (List Char)
  | [], acc => if acc = [] then [] else [acc.reverse]
  | c :: cs, acc =>
    if c.isWhitespace then
      (if acc = [] then splitWsAux cs [] else acc.reverse :: splitWsAux cs [])
    else splitWsAux cs (c :: acc)

/-- Python `str.split()` with no argument: split on runs of whitespace,
discarding empty tokens. -/
def splitWs (cs : List Char) : List (List Char) := splitWsAux cs []

/-- Python `text.lower().split()`: the token list every keyword matcher
of the source operates on.  Lowercasing is applied per character, as
Python does for ASCII text. -/
def tokenize (s : String) : List String :=
  (splitWs (s.toList.map Char.toLower)).map (fun cs => String.mk cs)

lemma splitWsAux_no_ws (cs : List Char) :
    ∀ acc : List Char, (∀ c ∈ acc, ¬c.isWhitespace) →
      ∀ t ∈ splitWsAux cs acc, ∀ c ∈ t, ¬c.isWhitespace := by
  induction cs with
  | nil =>
    intro acc hacc t ht c hc
    unfold splitWsAux at ht
    by_cases h : acc = []
    · simp [h] at ht
    · simp [h] at ht
      subst ht
      exact hacc c (List.mem_reverse.1 hc)
  | cons d ds ih =>
    intro acc hacc t ht c hc
    unfold splitWsAux at ht
    by_cases hw : d.isWhitespace
    · simp only [hw, if_true] at ht
      by_cases h : acc = []
      · simp [h] at ht
        exact ih [] (by simp) t ht c hc
      · simp [h] at ht
        rcases ht with ht | ht
        · subst ht
          exact hacc c (List.mem_reverse.1 hc)
        · exact ih [] (by simp) t ht c hc
    · simp only [hw, if_false] at ht
      refine ih (d :: acc) ?_ t ht c hc
      intro e he
      rcases List.mem_cons.1 he with rfl | he'
      · exact hw
      · exact hacc e he'

/-- Every token produced by whitespace splitting consists of
non-whitespace characters only. -/
lemma splitWs_no_ws {cs : List Char} {t : List Char} (ht : t ∈ splitWs cs) :
    ∀ c ∈ t, ¬c.isWhitespace :=
  splitWsAux_no_ws cs [] (by simp) t ht

/-- No token of a tokenized transcript contains a space character, so a
token is never equal to a multi-word keyword. -/
lemma tokenize_no_space {s : String} {w : String} (hw : w ∈ tokenize s) :
    ¬(' ' ∈ w.toList) := by
  unfold tokenize at hw
  rcases List.mem_map.1 hw with ⟨cs, hcs, rfl⟩
  intro hsp
  have : ¬(' ').isWhitespace := splitWs_no_ws hcs ' ' hsp
  simp [Char.isWhitespace] at this

/-! ### Speech Analyzer: `analysis/audio_analysis.py` -/

/-- One ASR segment: the fields of a Whisper segment that the pipeline
reads.  The Python key `end` is a reserved word in Lean, hence `end_`. -/
structure Segment where
  start : ℚ
  end_ : ℚ
  text : String
  no_speech_prob : ℚ
deriving DecidableEq

/-- `filler_words` list of `analyze_audio`. -/
def filler_words : List String :=
  ["um", "uh", "ah", "like", "you know", "sort of", "kind of"]

/-- Gaps between adjacent segments, mirroring the loop
`for i in range(1, len(segments)): gap = segments[i].start - segments[i-1].end`. -/
def pauseGaps : List Segment → List ℚ
  | a :: b :: rest => (b.start - a.end_) :: pauseGaps (b :: rest)
  | _ => []

lemma pauseGaps_eq_zip (l : List Segment) :
    pauseGaps l = (l.zip l.tail).map (fun p => p.2.start - p.1.end_) := by
  induction l with
  | nil => rfl
  | cons a t ih =>
    cases t with
    | nil => rfl
    | cons b rest =>
      simp only [pauseGaps, List.tail_cons, List.zip_cons_cons, List.map_cons]
      exact congrArg _ ih

/-- Result of `calculate_pause_metrics`. -/
structure PauseData where
  pause_frequency : ℕ
  average_pause_duration : ℚ
  long_pauses : ℕ
deriving DecidableEq

/-- `calculate_pause_metrics`: gaps > 0.5s are pauses; among those,
gaps > 2.0s are long pauses; the mean is 0.0 when no pause exists. -/
def calculate_pause_metrics (segments : List Segment) : PauseData :=
  let gaps := pauseGaps segments
  let pauses := gaps.filter (fun g => (1 : ℚ)/2 < g)
  let long_pauses := (gaps.filter (fun g => (1 : ℚ)/2 < g ∧ 2 < g)).length
  { pause_frequency := pauses.length
    average_pause_duration :=
      if pauses = [] then 0 else round2 (pauses.sum / (pauses.length : ℚ))
    long_pauses := long_pauses }

/-- Sum of segment durations, `sum(seg.end - seg.start)`. -/
def segDurationSum (segments : List Segment) : ℚ :=
  (segments.map (fun s => s.end_ - s.start)).sum

/-- `calculate_speech_rate`: words per minute; empty segments or zero
word count or zero speaking time give 0. -/
def calculate_speech_rate (segments : List Segment) (word_count : ℕ) : ℚ :=
  if segments = [] ∨ word_count = 0 then 0
  else
    let speaking_time := segDurationSum segments
    if speaking_time = 0 then 0
    else round2 ((word_count : ℚ) / speaking_time * 60)

/-- `calculate_fluency_score`: 100 minus filler, long-pause and
pause-rate penalties, clamped to [0,100] and rounded to 2 decimals. -/
def calculate_fluency_score (filler_count word_count long_pauses pause_frequency : ℕ) : ℚ :=
  if word_count = 0 then 0
  else
    let filler_penalty : ℚ := ((filler_count : ℚ) / (word_count : ℚ)) * 100
    let pause_penalty : ℚ := (long_pauses : ℚ) * 5
    let pause_rate_penalty : ℚ := min 30 ((pause_frequency : ℚ) * 2)
    round2 (max 0 (min 100 (100 - filler_penalty - pause_penalty - pause_rate_penalty)))

/-- Inline filler-rate computation of `analyze_audio`:
`round(filler_count / len(words) * 100, 2) if len(words) > 0 else 0`. -/
def filler_word_frequency (filler_count word_count : ℕ) : ℚ :=
  if 0 < word_count then round2 ((filler_count : ℚ) / (word_count : ℚ) * 100) else 0

/-- `np.diff`: consecutive differences. -/
def listDiffs : List ℚ → List ℚ
  | a :: b :: rest => (b - a) :: listDiffs (b :: rest)
  | _ => []

lemma listDiffs_length (l : List ℚ) : (listDiffs l).length = l.length - 1 := by
  induction l with
  | nil => rfl
  | cons a t ih =>
    cases t with
    | nil => rfl
    | cons b rest =>
      simp only [listDiffs, List.length_cons] at ih ⊢
      omega

/-- The direction-change count of `detect_vocal_tremor`:
`(diffs[i] > 0) != (diffs[i-1] > 0)` over consecutive difference pairs. -/
def countSignChanges : List ℚ → ℕ
  | a :: b :: rest =>
      (if (decide (0 < b)) ≠ (decide (0 < a)) then 1 else 0) + countSignChanges (b :: rest)
  | _ => 0

/-- `detect_vocal_tremor`: fewer than 10 pitch samples give `false`;
otherwise the flag is the comparison of the direction-change ratio
against 0.6. -/
def detect_vocal_tremor (pitch_values : List ℚ) : Bool :=
  if pitch_values = [] ∨ pitch_values.length < 10 then false
  else
    let pitch_diffs := listDiffs pitch_values
    decide ((0.6 : ℚ) < (countSignChanges pitch_diffs : ℚ) / (pitch_diffs.length : ℚ))

/-- Acoustic feature block returned by `extract_acoustic_features` or by
the librosa-free fallback `get_basic_acoustic_features`. -/
structure AcousticFeatures where
  pitch_variability : ℚ
  volume_stability : ℚ
  voice_stress_indicator : ℚ
  vocal_tremor_detected : Bool
deriving DecidableEq

/-- `get_basic_acoustic_features`: neutral defaults used when librosa is
not installed. -/
def get_basic_acoustic_features : AcousticFeatures :=
  { pitch_variability := 0
    volume_stability := 75
    voice_stress_indicator := 50
    vocal_tremor_detected := false }

/-- The volume-stability computation of `extract_acoustic_features`,
parameterized by the RMS-energy length, standard deviation and mean
(librosa outputs): `round(100 - std/mean*100, 2)` for a non-empty RMS
series, then clamped with `max(0, min(100, x))`. -/
def volume_stability (rmsLength : ℕ) (rmsStd rmsMean : ℚ) : ℚ :=
  max 0 (min 100 (if 0 < rmsLength then round2 (100 - rmsStd / rmsMean * 100) else 0))

/-- Output of the external ASR engine (`model.transcribe`). -/
structure TranscribeResult where
  text : String
  segments : List Segment
deriving DecidableEq

/-- The successful payload of `analyze_audio`. -/
structure AudioResult where
  transcript : String
  word_count : ℕ
  segments : List Segment
  filler_count : ℕ
  filler_word_frequency : ℚ
  pause_frequency : ℕ
  average_pause_duration : ℚ
  long_pauses : ℕ
  speech_rate_wpm : ℚ
  pitch_variability : ℚ
  volume_stability : ℚ
  voice_stress_indicator : ℚ
  vocal_tremor_detected : Bool
  speech_fluency_score : ℚ
deriving DecidableEq

/-- `analyze_audio` either returns an error dictionary or the metric
dictionary. -/
inductive AudioOutcome where
  | error (msg : String)
  | ok (result : AudioResult)
deriving DecidableEq

/-- `analyze_audio`, instrumented: the Boolean of the pair records
whether the ASR engine was invoked (the code transcribes only after the
file-existence check passes).  The ASR output and the acoustic features
computed from the waveform are parameters, as are file existence and
librosa availability. -/
def analyze_audio (fileExists : Bool) (asr : TranscribeResult)
    (librosaAvailable : Bool) (acoustic : AcousticFeatures) : AudioOutcome × Bool :=
  if !fileExists then (.error "Audio file not found", false)
  else
    let segments := asr.segments
    let words := tokenize asr.text
    let filler_count := (words.filter (fun w => w ∈ filler_words)).length
    let pause_data := calculate_pause_metrics segments
    let speech_rate := calculate_speech_rate segments words.length
    let af := if librosaAvailable then acoustic else get_basic_acoustic_features
    let fluency := calculate_fluency_score filler_count words.length
      pause_data.long_pauses pause_data.pause_frequency
    (.ok { transcript := asr.text
           word_count := words.length
           segments := segments
           filler_count := filler_count
           filler_word_frequency := filler_word_frequency filler_count words.length
           pause_frequency := pause_data.pause_frequency
           average_pause_duration := pause_data.average_pause_duration
           long_pauses := pause_data.long_pauses
           speech_rate_wpm := speech_rate
           pitch_variability := af.pitch_variability
           volume_stability := af.volume_stability
           voice_stress_indicator := af.voice_stress_indicator
           vocal_tremor_detected := af.vocal_tremor_detected
           speech_fluency_score := fluency }, true)

/-! ### Semantic Analyzer: `analysis/transcript_analysis.py` -/

/-- `calculate_content_density`: speech time over total duration as a
percentage, rounded to 2 decimals; zero total duration gives 0.  Note
that the quotient is NOT clamped. -/
def calculate_content_density (segments : List Segment) (total_duration : ℚ) : ℚ :=
  if total_duration = 0 then 0
  else round2 (segDurationSum segments / total_duration * 100)

/-- The total duration used by `analyze_transcript`:
`segments[-1].end if segments else 0`. -/
def total_duration_of (segments : List Segment) : ℚ :=
  match segments.getLast? with
  | some s => s.end_
  | none => 0

/-- The `speech_content_density` field of `analyze_transcript`. -/
def speech_content_density (segments : List Segment) : ℚ :=
  calculate_content_density segments (total_duration_of segments)

/-- `calculate_transcript_confidence`: mean of `(1 - no_speech_prob) * 100`
over segments; empty list gives 0. -/
def calculate_transcript_confidence (segments : List Segment) : ℚ :=
  if segments = [] then 0
  else
    let confidence_scores := segments.map (fun s => (1 - s.no_speech_prob) * 100)
    round2 (confidence_scores.sum / (confidence_scores.length : ℚ))

/-- JSON-like values: the shape of the dictionaries the semantic
analyzer builds and the LLM returns. -/
inductive JVal where
  | s (v : String)
  | n (v : ℚ)
  | b (v : Bool)
  | arr (v : List JVal)
  | obj (v : List (String × JVal))

/-- Association-list lookup mirroring Python dictionary access
(first matching key). -/
def jGet : List (String × JVal) → String → Option JVal
  | [], _ => none
  | (k, v) :: t, key => if k = key then some v else jGet t key

/-- Keyword lists of `get_fallback_analysis`. -/
def fear_keywords : List String :=
  ["afraid", "scared", "anxious", "worry", "fear", "nervous", "terrified"]

def stress_keywords : List String :=
  ["stress", "overwhelmed", "pressure", "tense", "exhausted", "burnout"]

def confidence_keywords : List String :=
  ["confident", "capable", "strong", "able", "succeed", "achieve"]

def calm_keywords : List String :=
  ["calm", "peaceful", "relaxed", "comfortable", "ease", "serene"]

def crisis_keywords : List String :=
  ["suicide", "kill myself", "end it", "hopeless", "worthless", "give up"]

/-- `get_fallback_analysis`: deterministic keyword matcher used
whenever the LLM path is unavailable or fails. -/
def get_fallback_analysis (transcript : String) : List (String × JVal) :=
  let words := tokenize transcript
  let fear_words := words.filter (fun w => w ∈ fear_keywords)
  let stress_words := words.filter (fun w => w ∈ stress_keywords)
  let confidence_words := words.filter (fun w => w ∈ confidence_keywords)
  let calm_words := words.filter (fun w => w ∈ calm_keywords)
  let crisis_words := words.filter (fun w => w ∈ crisis_keywords)
  let positive_count := confidence_words.length + calm_words.length
  let negative_count := fear_words.length + stress_words.length
  let overall_sentiment :=
    if negative_count < positive_count then "positive"
    else if positive_count < negative_count then "negative"
    else "neutral"
  [("sentiment_trend", .obj
      [("overall", .s overall_sentiment),
       ("trajectory", .s "stable"),
       ("confidence", .n 60)]),
   ("emotional_language", .obj
      [("fear_words", .arr ((fear_words.take 5).map JVal.s)),
       ("stress_words", .arr ((stress_words.take 5).map JVal.s)),
       ("confidence_words", .arr ((confidence_words.take 5).map JVal.s)),
       ("calm_words", .arr ((calm_words.take 5).map JVal.s)),
       ("total_emotional_words", .n ((fear_words.length + stress_words.length
          + confidence_words.length + calm_words.length : ℕ) : ℚ))]),
   ("cognitive_distortions", .arr []),
   ("crisis_indicators", .obj
      [("self_harm_references", .b (decide (0 < crisis_words.length))),
       ("hopelessness_language", .b (decide ("hopeless" ∈ words ∨ "worthless" ∈ words))),
       ("crisis_keywords_found", .arr (crisis_words.map JVal.s)),
       ("risk_level", .s (if 0 < crisis_words.length then "high" else "none"))]),
   ("observational_summary", .s ("Session transcript contains "
      ++ toString words.length ++ " words with " ++ overall_sentiment
      ++ " sentiment overall.")),
   ("strength_indicators", .arr
      (if 50 < words.length then
        [JVal.s "Engaged in session", JVal.s "Completed full session"]
      else []))]

/-- Outcome of the LLM call of `analyze_with_llm`: the API key may be
missing, the HTTP request may fail (network error, timeout, bad
status), the returned content may fail to parse as JSON, or a parsed
JSON object is obtained. -/
inductive LLMOutcome where
  | noApiKey
  | requestFailed (message : String)
  | invalidJson (content : String)
  | parsed (analysis : List (String × JVal))

/-- `analyze_with_llm`: the missing-key check returns the fallback, the
`try/except` around the request and the JSON parse returns the fallback
on any failure, and a successfully parsed analysis is returned as-is. -/
def analyze_with_llm (outcome : LLMOutcome) (transcript : String) : List (String × JVal) :=
  match outcome with
  | .noApiKey => get_fallback_analysis transcript
  | .requestFailed _ => get_fallback_analysis transcript
  | .invalidJson _ => get_fallback_analysis transcript
  | .parsed analysis => analysis

/-- Nested access `fallback["crisis_indicators"][field]`. -/
def crisisField (transcript : String) (field : String) : Option JVal :=
  match jGet (get_fallback_analysis transcript) "crisis_indicators" with
  | some (.obj m) => jGet m field
  | _ => none

/-! ### Facial/Behavioral Analyzer: `analysis/video_analysis.py` -/

/-- One entry of the emotions timeline built by `analyze_video`. -/
structure EmotionSample where
  time : ℚ
  emotion : String
  scores : List (String × ℚ)
deriving DecidableEq

/-- Python `dict.get(key, 0)` on an ordered association list. -/
def getCount : List (String × ℕ) → String → ℕ
  | [], _ => 0
  | (k, v) :: t, e => if k = e then v else getCount t e

/-- Python `max(items, key=value)` over dictionary items: the first
item attaining the maximal value, in insertion order. -/
def maxByCount (h : String × ℕ) (t : List (String × ℕ)) : String × ℕ :=
  t.foldl (fun best p => if best.2 < p.2 then p else best) h

/-- `assess_head_movement`: 3-bucket categorical judgment from the
emotional variability (the `emotion_changes` argument is unused, as in
the source). -/
def assess_head_movement (emotion_changes : ℕ) (variability : ℚ) : List (String × String) :=
  if 50 < variability then
    [("pattern", "high_movement"),
     ("description", "Frequent head movements detected, indicating high engagement or restlessness"),
     ("severity", "moderate")]
  else if 25 < variability then
    [("pattern", "moderate_movement"),
     ("description", "Normal head movement patterns observed"),
     ("severity", "low")]
  else
    [("pattern", "low_movement"),
     ("description", "Minimal head movement, indicating stillness or low engagement"),
     ("severity", "low")]

/-- Result of `calculate_video_metrics`. -/
structure VideoMetricsResult where
  dominant_emotion : String
  emotion_distribution : List (String × ℚ)
  emotional_variability : ℚ
  tension_index : ℚ
  eye_contact_consistency : ℚ
  head_movement_patterns : List (String × String)
  expressiveness_score : ℚ
  stress_frequency : ℚ
deriving DecidableEq

/-- `calculate_video_metrics`: the dominant-emotion counts dictionary
is modelled as an ordered association list (Python dictionaries keep
insertion order).  The `emotions_timeline` argument is unused by the
metric computation, as in the source. -/
def calculate_video_metrics (emotions_timeline : List EmotionSample)
    (emotion_counts : List (String × ℕ))
    (emotion_changes stress_expressions analyzed_frames : ℕ) (duration : ℚ) :
    VideoMetricsResult :=
  let total_analyzed := (emotion_counts.map Prod.snd).sum
  let emotion_distribution := emotion_counts.map (fun p =>
    (p.1, round2 (if 0 < total_analyzed then (p.2 : ℚ) / (total_analyzed : ℚ) * 100 else 0)))
  let dominant_emotion :=
    match emotion_counts with
    | [] => "neutral"
    | h :: t => (maxByCount h t).1
  let variability : ℚ :=
    if 1 < analyzed_frames then
      ((emotion_changes : ℚ) / ((analyzed_frames : ℚ) - 1)) * 100
    else 0
  let emotional_variability := round2 (min 100 variability)
  let stress_count := getCount emotion_counts "angry" + getCount emotion_counts "fear"
    + getCount emotion_counts "sad"
  let tension_index := round2
    (if 0 < total_analyzed then (stress_count : ℚ) / (total_analyzed : ℚ) * 100 else 0)
  let eye_contact_consistency := round2
    (((analyzed_frames : ℚ) / ((max 1 analyzed_frames : ℕ) : ℚ)) * 85)
  let head_movement_patterns := assess_head_movement emotion_changes emotional_variability
  let unique_emotions := emotion_counts.length
  let expressiveness := min 100 ((unique_emotions : ℚ) * 15 + emotional_variability * (1/2))
  let expressiveness_score := round2 expressiveness
  let stress_frequency := round2
    (if 0 < duration then (stress_expressions : ℚ) / (duration / 60) else 0)
  { dominant_emotion := dominant_emotion
    emotion_distribution := emotion_distribution
    emotional_variability := emotional_variability
    tension_index := tension_index
    eye_contact_consistency := eye_contact_consistency
    head_movement_patterns := head_movement_patterns
    expressiveness_score := expressiveness_score
    stress_frequency := stress_frequency }

/-! ### Report Aggregator: `analysis/pipeline.py` -/

/-- The per-participant keys of the `analyze_video` result dictionary
that the aggregator and the stepwise slicer read. -/
structure VideoResult where
  emotions : List EmotionSample
  dominant_emotion_distribution : List (String × ℚ)
  facial_emotional_variability : ℚ
  facial_tension_index : ℚ
  eye_contact_consistency : ℚ
  head_movement_patterns : List (String × String)
  facial_expressiveness_score : ℚ
  stress_expression_frequency : ℚ
deriving DecidableEq

/-- The aggregate block returned by `aggregate_video_metrics`. -/
structure AggregatedVideo where
  dominant_emotion_distribution : List (String × ℚ)
  facial_emotional_variability : ℚ
  facial_tension_index : ℚ
  eye_contact_consistency : ℚ
  head_movement_patterns : List (String × String)
  facial_expressiveness_score : ℚ
  stress_expression_frequency : ℚ
deriving DecidableEq

/-- `aggregate_video_metrics`: an empty participant dictionary gives an
empty aggregate (`{}` in the source, hence `none`).  Otherwise only
the first participant in insertion order contributes
(`list(video_results.values())[0]`). -/
def aggregate_video_metrics : List (String × VideoResult) → Option AggregatedVideo
  | [] => none
  | (_, first) :: _ => some
      { dominant_emotion_distribution := first.dominant_emotion_distribution
        facial_emotional_variability := first.facial_emotional_variability
        facial_tension_index := first.facial_tension_index
        eye_contact_consistency := first.eye_contact_consistency
        head_movement_patterns := first.head_movement_patterns
        facial_expressiveness_score := first.facial_expressiveness_score
        stress_expression_frequency := first.stress_expression_frequency }

/-- The `video_analysis` block of the comprehensive report. -/
structure VideoAnalysisSection where
  dominant_emotion_distribution : List (String × ℚ)
  facial_emotional_variability : ℚ
  facial_tension_index : ℚ
  eye_contact_consistency : ℚ
  head_movement_patterns : List (String × String)
  facial_expressiveness_score : ℚ
  stress_expression_frequency : ℚ
  participants : List (String × VideoResult)
deriving DecidableEq

/-- The `video_analysis` block built by `generate_comprehensive_report`:
`aggregated_video.get(key, default)` for the aggregate fields, with the
full per-participant dictionary attached under `participants`. -/
def report_video_analysis (video_results : List (String × VideoResult)) :
    VideoAnalysisSection :=
  match aggregate_video_metrics video_results with
  | some a =>
      { dominant_emotion_distribution := a.dominant_emotion_distribution
        facial_emotional_variability := a.facial_emotional_variability
        facial_tension_index := a.facial_tension_index
        eye_contact_consistency := a.eye_contact_consistency
        head_movement_patterns := a.head_movement_patterns
        facial_expressiveness_score := a.facial_expressiveness_score
        stress_expression_frequency := a.stress_expression_frequency
        participants := video_results }
  | none =>
      { dominant_emotion_distribution := []
        facial_emotional_variability := 0
        facial_tension_index := 0
        eye_contact_consistency := 0
        head_movement_patterns := []
        facial_expressiveness_score := 0
        stress_expression_frequency := 0
        participants := video_results }

/-! ### Stepwise slicing: `app.py` -/

/-- Dictionary build `counts[e] = counts.get(e, 0) + 1`: update in
place when the key exists, append otherwise. -/
def bump : List (String × ℕ) → String → List (String × ℕ)
  | [], e => [(e, 1)]
  | (k, v) :: t, e => if k = e then (k, v + 1) :: t else (k, v) :: bump t e

/-- The emotion-count dictionary of `extract_metrics_for_timerange`,
built over the filtered samples in traversal order. -/
def buildCounts (emotions : List String) : List (String × ℕ) :=
  emotions.foldl bump []

/-- The participant loop of `extract_metrics_for_timerange`: collect,
in participant order, the timeline samples whose timestamp satisfies
`start_time <= time < end_time`. -/
def filteredSamples (participants : List (String × VideoResult))
    (start_time end_time : ℚ) : List EmotionSample :=
  participants.foldl
    (fun acc p => acc ++ p.2.emotions.filter
      (fun s => start_time ≤ s.time ∧ s.time < end_time)) []

/-- The step-local metrics returned by `extract_metrics_for_timerange`. -/
structure StepMetrics where
  emotion_distribution : List (String × ℚ)
  dominant_emotion : String
  sample_count : ℕ
deriving DecidableEq

/-- `extract_metrics_for_timerange`. -/
def extract_metrics_for_timerange (participants : List (String × VideoResult))
    (start_time end_time : ℚ) : StepMetrics :=
  let filtered_emotions := filteredSamples participants start_time end_time
  let emotion_counts := buildCounts (filtered_emotions.map (fun s => s.emotion))
  let total := (emotion_counts.map Prod.snd).sum
  let emotion_distribution :=
    if 0 < total then
      emotion_counts.map (fun p => (p.1, round2 ((p.2 : ℚ) / (total : ℚ) * 100)))
    else []
  { emotion_distribution := emotion_distribution
    dominant_emotion :=
      match emotion_counts with
      | [] => "neutral"
      | h :: t => (maxByCount h t).1
    sample_count := filtered_emotions.length }

/-- One entry of the stepwise breakdown: the step boundary is modelled
by its timestamp (`step.get("time", 0)`). -/
structure StepSlice where
  step : ℚ
  range_start : ℚ
  range_end : ℚ
  metrics : StepMetrics
deriving DecidableEq

/-- `generate_stepwise_metrics`: window i spans from step i to step
i+1, the last window ending at the sentinel 999999. -/
def generate_stepwise_metrics (participants : List (String × VideoResult)) :
    List ℚ → List StepSlice
  | [] => []
  | [t] => [⟨t, t, 999999, extract_metrics_for_timerange participants t 999999⟩]
  | t :: t2 :: rest =>
      ⟨t, t, t2, extract_metrics_for_timerange participants t t2⟩
        :: generate_stepwise_metrics participants (t2 :: rest)


/-! ## Evaluation helpers -/

/-- Evaluate `round2` on a concrete rational via the floor
characterization. -/
lemma round2_eq_of (q : ℚ) (n : ℤ) (h1 : (n : ℚ) ≤ q * 100 + 1/2)
    (h2 : q * 100 + 1/2 < (n : ℚ) + 1) : round2 q = (n : ℚ)/100 := by
  unfold round2
  rw [round_eq]
  have hf : ⌊q * 100 + 1/2⌋ = n := Int.floor_eq_iff.2 ⟨h1, by exact_mod_cast h2⟩
  rw [hf]

/-- Swapping the clamp order: `max 0 (min 100 x) = min 100 (max 0 x)`. -/
lemma max_zero_min_hundred (x : ℚ) : max 0 (min 100 x) = min 100 (max 0 x) := by
  rcases le_total x 0 with h | h
  · rw [min_eq_right (le_trans h (by norm_num)), max_eq_left h,
      min_eq_right (by norm_num : (0 : ℚ) ≤ 100)]
  · rcases le_total x 100 with h2 | h2
    · rw [min_eq_right h2, max_eq_right h, min_eq_right h2]
    · rw [min_eq_left h2, max_eq_right (by norm_num : (0 : ℚ) ≤ 100),
        max_eq_right h, min_eq_left h2]


/-- For a list of distinct keys, the sum of dictionary lookups is at
most the sum of all dictionary values. -/
lemma sum_map_getCount_le (m : List (String × ℕ)) :
    ∀ keys : List String, keys.Nodup →
      (keys.map (getCount m)).sum ≤ (m.map Prod.snd).sum := by
  induction m with
  | nil =>
    intro keys _
    have h0 : (keys.map (getCount [])).sum = 0 := by
      apply List.sum_eq_zero
      intro x hx
      rcases List.mem_map.1 hx with ⟨e, -, rfl⟩
      rfl
    simp [h0]
  | cons hd tail ih =>
    obtain ⟨k, v⟩ := hd
    intro keys hnd
    by_cases hk : k ∈ keys
    · have hperm : keys.Perm (k :: keys.erase k) := List.perm_cons_erase hk
      have hsum : (keys.map (getCount ((k, v) :: tail))).sum
          = ((k :: keys.erase k).map (getCount ((k, v) :: tail))).sum :=
        (hperm.map _).sum_eq
      rw [hsum]
      simp only [List.map_cons, List.sum_cons]
      have hck : getCount ((k, v) :: tail) k = v := by simp [getCount]
      have hrest : (keys.erase k).map (getCount ((k, v) :: tail))
          = (keys.erase k).map (getCount tail) := by
        apply List.map_congr_left
        intro e he
        have hne : e ≠ k := ((List.Nodup.mem_erase_iff hnd).1 he).1
        have hne2 : ¬(k = e) := fun hh => hne hh.symm
        simp [getCount, hne2]
      rw [hck, hrest]
      have hih := ih (keys.erase k) (hnd.erase k)
      omega
    · have hrest : keys.map (getCount ((k, v) :: tail)) = keys.map (getCount tail) := by
        apply List.map_congr_left
        intro e he
        have hne : ¬(k = e) := fun hh => hk (hh ▸ he)
        simp [getCount, hne]
      rw [hrest]
      have hih := ih keys hnd
      simp only [List.map_cons, List.sum_cons]
      omega

/-- Claim C1 counterexample: two fully overlapping segments make the
summed durations (20) exceed the last segment end (10), and the
speech content density produced by the analyzer is 200, outside
[0,100] — the claim asserts the value lies in [0,100] even for such
segment lists. -/
theorem c1_counterexample :
    speech_content_density [⟨0, 10, "a", 0⟩, ⟨0, 10, "b", 0⟩] = 200
    ∧ ¬(speech_content_density [⟨0, 10, "a", 0⟩, ⟨0, 10, "b", 0⟩] ≤ 100) := by
  have ht : total_duration_of [(⟨0, 10, "a", 0⟩ : Segment), ⟨0, 10, "b", 0⟩] = 10 := rfl
  have h : speech_content_density [⟨0, 10, "a", 0⟩, ⟨0, 10, "b", 0⟩] = 200 := by
    simp only [speech_content_density, ht, calculate_content_density, segDurationSum]
    norm_num
    rw [round2_eq_of 200 20000 (by norm_num) (by norm_num)]
    norm_num
  exact ⟨h, by rw [h]; norm_num⟩

/-- Claim C1 (amended): the fluency score, the volume stability, the
facial tension index, the facial emotional variability and the facial
expressiveness score always lie in [0,100]; the speech content density
lies in [0,100] whenever every segment has `end >= start` and the
summed segment durations do not exceed the total duration (as with
ordered non-overlapping segments), but it is not clamped and exceeds
100 when the summed durations exceed the total duration. -/
theorem c1_scores_in_range :
    (∀ fc wc lp pf : ℕ,
      0 ≤ calculate_fluency_score fc wc lp pf ∧ calculate_fluency_score fc wc lp pf ≤ 100)
    ∧ (∀ (n : ℕ) (rmsStd rmsMean : ℚ),
      0 ≤ volume_stability n rmsStd rmsMean ∧ volume_stability n rmsStd rmsMean ≤ 100)
    ∧ (∀ (tl : List EmotionSample) (counts : List (String × ℕ)) (ch st fr : ℕ) (dur : ℚ),
      (0 ≤ (calculate_video_metrics tl counts ch st fr dur).tension_index
        ∧ (calculate_video_metrics tl counts ch st fr dur).tension_index ≤ 100)
      ∧ (0 ≤ (calculate_video_metrics tl counts ch st fr dur).emotional_variability
        ∧ (calculate_video_metrics tl counts ch st fr dur).emotional_variability ≤ 100)
      ∧ (0 ≤ (calculate_video_metrics tl counts ch st fr dur).expressiveness_score
        ∧ (calculate_video_metrics tl counts ch st fr dur).expressiveness_score ≤ 100))
    ∧ (∀ (segments : List Segment) (total_duration : ℚ),
      (∀ s ∈ segments, s.start ≤ s.end_) →
      segDurationSum segments ≤ total_duration →
      0 ≤ calculate_content_density segments total_duration
        ∧ calculate_content_density segments total_duration ≤ 100) := by
  refine ⟨?_, ?_, ?_, ?_⟩
  · intro fc wc lp pf
    by_cases h : wc = 0
    · simp [calculate_fluency_score, h]
    · simp only [calculate_fluency_score, if_neg h]
      exact round2_bounds (le_max_left _ _) (max_le (by norm_num) (min_le_left _ _))
  · intro n rmsStd rmsMean
    unfold volume_stability
    exact ⟨le_max_left _ _, max_le (by norm_num) (min_le_left _ _)⟩
  · intro tl counts ch st fr dur
    have hEV0 : 0 ≤ round2 (min 100
        (if 1 < fr then ((ch : ℚ) / ((fr : ℚ) - 1)) * 100 else 0)) := by
      apply round2_nonneg
      apply le_min (by norm_num)
      split_ifs with h
      · have h1 : (1 : ℚ) < (fr : ℚ) := by exact_mod_cast h
        apply mul_nonneg (div_nonneg (by positivity) (by linarith)) (by norm_num)
      · exact le_refl 0
    simp only [calculate_video_metrics]
    refine ⟨⟨?_, ?_⟩, ⟨?_, ?_⟩, ⟨?_, ?_⟩⟩
    · apply round2_nonneg
      split_ifs with hT
      · positivity
      · exact le_refl 0
    · apply round2_le_hundred
      split_ifs with hT
      · have hs3 : getCount counts "angry" + getCount counts "fear" + getCount counts "sad"
            ≤ (counts.map Prod.snd).sum := by
          have h := sum_map_getCount_le counts ["angry", "fear", "sad"] (by decide)
          simp only [List.map_cons, List.map_nil, List.sum_cons, List.sum_nil, add_zero] at h
          omega
        have hT2 : (0 : ℚ) < ((counts.map Prod.snd).sum : ℚ) := by exact_mod_cast hT
        have hcast : ((getCount counts "angry" + getCount counts "fear"
            + getCount counts "sad" : ℕ) : ℚ) ≤ ((counts.map Prod.snd).sum : ℚ) := by
          exact_mod_cast hs3
        have hdiv := (div_le_one hT2).2 hcast
        linarith
      · norm_num
    · exact hEV0
    · exact round2_le_hundred (min_le_left _ _)
    · apply round2_nonneg
      apply le_min (by norm_num)
      apply add_nonneg (by positivity)
      exact mul_nonneg hEV0 (by norm_num)
    · exact round2_le_hundred (min_le_left _ _)
  · intro segments total_duration hseg hsum
    unfold calculate_content_density
    split_ifs with hT
    · norm_num
    · have hs0 : 0 ≤ segDurationSum segments := by
        apply List.sum_nonneg
        intro x hx
        rcases List.mem_map.1 hx with ⟨s, hs, rfl⟩
        have := hseg s hs
        linarith
      have hT0 : 0 < total_duration := lt_of_le_of_ne (le_trans hs0 hsum) (Ne.symm hT)
      apply round2_bounds
      · positivity
      · have hdiv := (div_le_one hT0).2 hsum
        linarith

/-! ## Claims -/

/-- Claim C9: when the audio file path does not exist, `analyze_audio`
returns the error result immediately and the ASR engine is never
invoked (the instrumentation Boolean is `false`), independently of the
ASR output, the librosa availability and the acoustic features: no
model load, no transcription, no partial metrics. -/
theorem c9_missing_audio_file (asr : TranscribeResult)
    (librosaAvailable : Bool) (acoustic : AcousticFeatures) :
    analyze_audio false asr librosaAvailable acoustic
      = (AudioOutcome.error "Audio file not found", false) := rfl

/-- Claim C2: for every segment list, `pause_frequency` is the number
of adjacent gaps `next.start - prev.end` exceeding 0.5, `long_pauses`
the number of gaps exceeding 2.0 (hence `long_pauses` is at most
`pause_frequency`), and when no gap exceeds 0.5 the average pause
duration is exactly 0. -/
theorem c2_pause_metrics (segments : List Segment) :
    (calculate_pause_metrics segments).pause_frequency
      = (((segments.zip segments.tail).map (fun p => p.2.start - p.1.end_)).filter
          (fun g => (1 : ℚ)/2 < g)).length
    ∧ (calculate_pause_metrics segments).long_pauses
      = (((segments.zip segments.tail).map (fun p => p.2.start - p.1.end_)).filter
          (fun g => (2 : ℚ) < g)).length
    ∧ (calculate_pause_metrics segments).long_pauses
      ≤ (calculate_pause_metrics segments).pause_frequency
    ∧ ((∀ g ∈ (segments.zip segments.tail).map (fun p => p.2.start - p.1.end_),
          g ≤ 1/2) →
        (calculate_pause_metrics segments).average_pause_duration = 0) := by
  have hz := pauseGaps_eq_zip segments
  have hlong : ((segments.zip segments.tail).map (fun p => p.2.start - p.1.end_)).filter
        (fun g => decide ((1 : ℚ)/2 < g ∧ (2 : ℚ) < g))
      = ((segments.zip segments.tail).map (fun p => p.2.start - p.1.end_)).filter
        (fun g => decide ((2 : ℚ) < g)) := by
    apply List.filter_congr
    intro g _
    simp only [decide_eq_decide]
    exact ⟨fun h => h.2, fun h => ⟨lt_trans (by norm_num) h, h⟩⟩
  refine ⟨?_, ?_, ?_, ?_⟩
  · simp only [calculate_pause_metrics, hz]
  · simp only [calculate_pause_metrics, hz, hlong]
  · simp only [calculate_pause_metrics]
    rw [← List.countP_eq_length_filter, ← List.countP_eq_length_filter]
    apply List.countP_mono_left
    intro g _ h
    simp only [decide_eq_true_eq] at h ⊢
    exact h.1
  · intro hall
    have hnil : ((segments.zip segments.tail).map (fun p => p.2.start - p.1.end_)).filter
        (fun g => decide ((1 : ℚ)/2 < g)) = [] := by
      rw [List.filter_eq_nil_iff]
      intro g hg
      simp only [decide_eq_true_eq, not_lt]
      exact hall g hg
    simp only [calculate_pause_metrics, hz, hnil]
    simp

/-- Claim C2 witness: segments with gaps 3 and 0.3 give pause
frequency 1 and long pauses 1; segments with gap 0 give average pause
duration 0 through the zero-pause branch. -/
theorem c2_pause_metrics_witness :
    (calculate_pause_metrics
        [⟨0, 2, "a", 0⟩, ⟨5, 6, "b", 0⟩, ⟨(63 : ℚ)/10, 7, "c", 0⟩]).pause_frequency = 1
    ∧ (calculate_pause_metrics
        [⟨0, 2, "a", 0⟩, ⟨5, 6, "b", 0⟩, ⟨(63 : ℚ)/10, 7, "c", 0⟩]).long_pauses = 1
    ∧ (calculate_pause_metrics [⟨0, 2, "a", 0⟩, ⟨2, 3, "b", 0⟩]).average_pause_duration = 0 := by
  refine ⟨?_, ?_, ?_⟩
  · rw [(c2_pause_metrics _).1]
    norm_num [List.filter]
  · rw [(c2_pause_metrics _).2.1]
    norm_num [List.filter]
  · apply (c2_pause_metrics _).2.2.2
    intro g hg
    simp only [List.zip_cons_cons, List.tail_cons, List.zip_nil_right,
      List.map_cons, List.map_nil, List.mem_cons, List.not_mem_nil, or_false] at hg
    rw [hg]
    norm_num

/-- Claim C3 counterexample: with word count 3, one filler word and no
pauses the code returns `round(100 - 100/3, 2) = 66.67`, which differs
from the exact clamped value `100 - (1/3)*100 = 200/3` asserted by the
claim. -/
theorem c3_counterexample :
    calculate_fluency_score 1 3 0 0 = 6667/100
    ∧ calculate_fluency_score 1 3 0 0
        ≠ max 0 (min 100 (100 - ((1 : ℚ)/3) * 100 - 5 * 0 - min 30 (2 * 0))) := by
  have h : calculate_fluency_score 1 3 0 0 = 6667/100 := by
    have harg : max (0 : ℚ) (min 100 (100 - ((1 : ℚ)) / ((3 : ℚ)) * 100 - (0 : ℚ) * 5
        - min 30 ((0 : ℚ) * 2))) = 200/3 := by
      norm_num [min_def, max_def]
    simp only [calculate_fluency_score]
    norm_num [harg]
    rw [round2_eq_of (200/3) 6667 (by norm_num) (by norm_num)]
    norm_num
  refine ⟨h, ?_⟩
  rw [h]
  have : max (0 : ℚ) (min 100 (100 - ((1 : ℚ)/3) * 100 - 5 * 0 - min 30 (2 * 0))) = 200/3 := by
    norm_num [min_def, max_def]
  rw [this]
  norm_num

/-- Claim C3 (amended): for word count 0 the filler rate, the speech
rate and the fluency score are each exactly 0; for positive word count
the fluency score equals
`100 - (filler/words)*100 - 5*long_pauses - min 30 (2*pause_frequency)`
clamped to [0,100] and, additionally, rounded to two decimal places. -/
theorem c3_zero_words_and_fluency_formula :
    (∀ filler_count : ℕ, filler_word_frequency filler_count 0 = 0)
    ∧ (∀ segments : List Segment, calculate_speech_rate segments 0 = 0)
    ∧ (∀ filler_count long_pauses pause_frequency : ℕ,
        calculate_fluency_score filler_count 0 long_pauses pause_frequency = 0)
    ∧ (∀ filler_count word_count long_pauses pause_frequency : ℕ,
        0 < word_count →
        calculate_fluency_score filler_count word_count long_pauses pause_frequency
          = round2 (min 100 (max 0 (100 - ((filler_count : ℚ)/(word_count : ℚ)) * 100
              - 5 * (long_pauses : ℚ) - min 30 (2 * (pause_frequency : ℚ)))))) := by
  refine ⟨?_, ?_, ?_, ?_⟩
  · intro fc
    simp [filler_word_frequency]
  · intro segs
    simp [calculate_speech_rate]
  · intro fc lp pf
    simp [calculate_fluency_score]
  · intro fc wc lp pf hwc
    have hne : wc ≠ 0 := Nat.pos_iff_ne_zero.1 hwc
    simp only [calculate_fluency_score, if_neg hne]
    rw [mul_comm ((lp : ℚ)) 5, mul_comm ((pf : ℚ)) 2, max_zero_min_hundred]

/-- Claim C3 witness: instantiating the amended statement at word
count 0 and at word count 4 with one filler, one long pause and two
pauses. -/
theorem c3_zero_words_and_fluency_formula_witness :
    filler_word_frequency 5 0 = 0
    ∧ calculate_fluency_score 3 0 1 2 = 0
    ∧ calculate_fluency_score 1 4 1 2
        = round2 (min 100 (max 0 (100 - ((1 : ℚ)/(4 : ℚ)) * 100
            - 5 * (1 : ℚ) - min 30 (2 * (2 : ℚ))))) := by
  refine ⟨c3_zero_words_and_fluency_formula.1 5,
    c3_zero_words_and_fluency_formula.2.2.1 3 1 2, ?_⟩
  have h := c3_zero_words_and_fluency_formula.2.2.2 1 4 1 2 (by norm_num)
  simpa using h

/-- Claim C4: the vocal tremor flag is true exactly when at least 10
pitch samples exist and the direction-change ratio (sign changes of
consecutive differences over the number of differences) exceeds 0.6;
a strictly monotonic sequence of length 20 gives `false` and an
alternating +1, -1 sequence of length 20 gives `true`. -/
theorem c4_vocal_tremor :
    (∀ pitch_values : List ℚ,
      detect_vocal_tremor pitch_values = true
        ↔ (10 ≤ pitch_values.length
            ∧ (0.6 : ℚ) < (countSignChanges (listDiffs pitch_values) : ℚ)
                / ((listDiffs pitch_values).length : ℚ)))
    ∧ detect_vocal_tremor
        [0, 1, 2, 3, 4, 5, 6, 7, 8, 9, 10, 11, 12, 13, 14, 15, 16, 17, 18, 19] = false
    ∧ detect_vocal_tremor
        [1, -1, 1, -1, 1, -1, 1, -1, 1, -1, 1, -1, 1, -1, 1, -1, 1, -1, 1, -1] = true := by
  refine ⟨?_, ?_, ?_⟩
  · intro p
    simp only [detect_vocal_tremor]
    by_cases h : p = [] ∨ p.length < 10
    · rw [if_pos h]
      refine iff_of_false (by simp) ?_
      rintro ⟨h1, -⟩
      rcases h with h | h
      · subst h
        simp at h1
      · omega
    · rw [if_neg h]
      push_neg at h
      simp only [decide_eq_true_eq]
      exact ⟨fun hr => ⟨h.2, hr⟩, fun hr => hr.2⟩
  · norm_num [detect_vocal_tremor, listDiffs, countSignChanges]
  · norm_num [detect_vocal_tremor, listDiffs, countSignChanges]
    simp

/-- Claim C4 witness: applying the characterization to the alternating
length-20 sequence, whose direction-change ratio exceeds 0.6. -/
theorem c4_vocal_tremor_witness :
    (0.6 : ℚ) < (countSignChanges (listDiffs
        [1, -1, 1, -1, 1, -1, 1, -1, 1, -1, 1, -1, 1, -1, 1, -1, 1, -1, 1, -1]) : ℚ)
      / ((listDiffs
        [(1 : ℚ), -1, 1, -1, 1, -1, 1, -1, 1, -1, 1, -1, 1, -1, 1, -1, 1, -1, 1, -1]).length : ℚ) :=
  ((c4_vocal_tremor.1 _).1 c4_vocal_tremor.2.2).2


/-- Claim C1 witness: the fluency-score bound instantiated at concrete
counts, and the content-density bound at a single well-formed segment
with duration 1 inside a total duration of 2, discharging both
hypotheses. -/
theorem c1_scores_in_range_witness :
    (0 ≤ calculate_fluency_score 2 10 1 3 /\ calculate_fluency_score 2 10 1 3 ≤ 100)
    /\ (0 ≤ calculate_content_density [⟨0, 1, "a", 0⟩] 2
        /\ calculate_content_density [⟨0, 1, "a", 0⟩] 2 ≤ 100) := by
  refine ⟨c1_scores_in_range.1 2 10 1 3, ?_⟩
  apply c1_scores_in_range.2.2.2
  · intro s hs
    simp only [List.mem_cons, List.not_mem_nil, or_false] at hs
    subst hs
    norm_num
  · norm_num [segDurationSum]

/-- Claim C6: for every non-empty participant dictionary, the
session-level `video_analysis` aggregate fields equal exactly the
first participant values, while `participants` still carries every
participant entry. -/
theorem c6_first_participant_aggregation (video_results : List (String × VideoResult))
    (h : video_results ≠ []) :
    (report_video_analysis video_results).dominant_emotion_distribution
        = (video_results.head h).2.dominant_emotion_distribution
    /\ (report_video_analysis video_results).facial_emotional_variability
        = (video_results.head h).2.facial_emotional_variability
    /\ (report_video_analysis video_results).facial_tension_index
        = (video_results.head h).2.facial_tension_index
    /\ (report_video_analysis video_results).eye_contact_consistency
        = (video_results.head h).2.eye_contact_consistency
    /\ (report_video_analysis video_results).head_movement_patterns
        = (video_results.head h).2.head_movement_patterns
    /\ (report_video_analysis video_results).facial_expressiveness_score
        = (video_results.head h).2.facial_expressiveness_score
    /\ (report_video_analysis video_results).stress_expression_frequency
        = (video_results.head h).2.stress_expression_frequency
    /\ (report_video_analysis video_results).participants = video_results := by
  match video_results, h with
  | (pid, first) :: rest, _ =>
    refine ⟨rfl, rfl, rfl, rfl, rfl, rfl, rfl, rfl⟩

/-- Claim C6 witness: two participants with different metric values;
the report surfaces exactly the values of the first while keeping both
under `participants`. -/
theorem c6_first_participant_aggregation_witness :
    (report_video_analysis
        [("A", ⟨[], [("happy", 60)], 10, 20, 85, [("pattern", "low_movement")], 30, 1⟩),
         ("B", ⟨[], [("sad", 70)], 11, 21, 86, [("pattern", "high_movement")], 31, 2⟩)]).facial_tension_index
      = 20
    /\ (report_video_analysis
        [("A", ⟨[], [("happy", 60)], 10, 20, 85, [("pattern", "low_movement")], 30, 1⟩),
         ("B", ⟨[], [("sad", 70)], 11, 21, 86, [("pattern", "high_movement")], 31, 2⟩)]).participants.length
      = 2 := by
  have h := c6_first_participant_aggregation
    [("A", ⟨[], [("happy", 60)], 10, 20, 85, [("pattern", "low_movement")], 30, 1⟩),
     ("B", ⟨[], [("sad", 70)], 11, 21, 86, [("pattern", "high_movement")], 31, 2⟩)]
    (by simp)
  refine ⟨?_, ?_⟩
  · rw [h.2.2.1]
    rfl
  · rw [h.2.2.2.2.2.2.2]
    rfl


/-- A token never equals a keyword that contains a space character. -/
lemma token_ne_of_space {s : String} {w : String} (hw : w ∈ tokenize s)
    (k : String) (hk : ' ' ∈ k.toList) : w ≠ k :=
  fun h => tokenize_no_space hw (h ▸ hk)

/-- Claim C7: in the deterministic fallback, a transcript whose token
list contains "hopeless" gets `hopelessness_language = true`; the
`risk_level` is "high" exactly when at least one crisis keyword occurs
among the tokens and "none" exactly when none does; and
`crisis_keywords_found` lists exactly the crisis-keyword tokens.
Presence is token-level: the source lowercases and splits the
transcript on whitespace and compares whole tokens. -/
theorem c7_crisis_fallback :
    (∀ t : String, "hopeless" ∈ tokenize t →
      crisisField t "hopelessness_language" = some (JVal.b true))
    ∧ (∀ t : String,
      ((((tokenize t).filter (fun w => w ∈ crisis_keywords)) ≠ []) →
        crisisField t "risk_level" = some (JVal.s "high"))
      ∧ ((((tokenize t).filter (fun w => w ∈ crisis_keywords)) = []) →
        crisisField t "risk_level" = some (JVal.s "none")))
    ∧ (∀ t : String, crisisField t "crisis_keywords_found"
        = some (JVal.arr (((tokenize t).filter (fun w => w ∈ crisis_keywords)).map JVal.s))) := by
  refine ⟨?_, ?_, ?_⟩
  · intro t h
    simp [crisisField, get_fallback_analysis, jGet, h]
  · intro t
    constructor
    · intro h
      have hl : 0 < ((tokenize t).filter (fun w => w ∈ crisis_keywords)).length :=
        List.length_pos.2 h
      simp [crisisField, get_fallback_analysis, jGet, hl]
    · intro h
      simp [crisisField, get_fallback_analysis, jGet, h]
  · intro t
    simp [crisisField, get_fallback_analysis, jGet]

/-- Claim C7 witness: the transcript "I feel hopeless" (whose token
list contains the bare crisis keyword) gets the hopelessness flag and
high risk; a crisis-free transcript gets risk "none". -/
theorem c7_crisis_fallback_witness :
    crisisField "I feel hopeless" "hopelessness_language" = some (JVal.b true)
    ∧ crisisField "I feel hopeless" "risk_level" = some (JVal.s "high")
    ∧ crisisField "all is well" "risk_level" = some (JVal.s "none") :=
  ⟨c7_crisis_fallback.1 "I feel hopeless" (by decide),
   (c7_crisis_fallback.2.1 "I feel hopeless").1 (by decide),
   (c7_crisis_fallback.2.1 "all is well").2 (by decide)⟩

/-- Claim C8: whenever the LLM path is unavailable or fails (missing
API key, request failure, or content that does not parse as JSON),
`analyze_with_llm` returns the deterministic fallback — the failure
never escapes the analyzer — and the fallback dictionary carries all
six contract keys for every transcript. -/
theorem c8_fallback_on_llm_failure :
    (∀ (transcript : String) (outcome : LLMOutcome),
      (∀ a, outcome ≠ LLMOutcome.parsed a) →
      analyze_with_llm outcome transcript = get_fallback_analysis transcript)
    ∧ (∀ transcript : String,
      (get_fallback_analysis transcript).map Prod.fst
        = ["sentiment_trend", "emotional_language", "cognitive_distortions",
           "crisis_indicators", "observational_summary", "strength_indicators"]) := by
  constructor
  · intro t o h
    cases o with
    | noApiKey => rfl
    | requestFailed m => rfl
    | invalidJson c => rfl
    | parsed a => exact absurd rfl (h a)
  · intro t
    rfl

/-- Claim C8 witness: the missing-key and bad-JSON outcomes both
produce the fallback for a concrete transcript. -/
theorem c8_fallback_on_llm_failure_witness :
    analyze_with_llm LLMOutcome.noApiKey "hello there" = get_fallback_analysis "hello there"
    ∧ analyze_with_llm (LLMOutcome.invalidJson "not json") "hello there"
        = get_fallback_analysis "hello there" :=
  ⟨c8_fallback_on_llm_failure.1 "hello there" LLMOutcome.noApiKey
      (fun a h => LLMOutcome.noConfusion h),
   c8_fallback_on_llm_failure.1 "hello there" (LLMOutcome.invalidJson "not json")
      (fun a h => LLMOutcome.noConfusion h)⟩

/-- Claim C10: both keyword matchers compare whole whitespace-split
lowercased tokens, so the multi-word entries of the filler list
("you know", "sort of", "kind of") and of the crisis list
("kill myself", "end it", "give up") can never match any token:
restricting each list to its single-word entries changes neither the
filler count nor the found crisis keywords; and a keyword with
attached punctuation, as in "I feel hopeless.", matches nothing. -/
theorem c10_multiword_keywords_never_match :
    (∀ transcript : String,
      ((tokenize transcript).filter (fun w => w ∈ filler_words)).length
        = ((tokenize transcript).filter (fun w => w ∈ ["um", "uh", "ah", "like"])).length)
    ∧ (∀ transcript : String,
      (tokenize transcript).filter (fun w => w ∈ crisis_keywords)
        = (tokenize transcript).filter (fun w => w ∈ ["suicide", "hopeless", "worthless"]))
    ∧ tokenize "I feel hopeless." = ["i", "feel", "hopeless."]
    ∧ (tokenize "I feel hopeless.").filter (fun w => w ∈ crisis_keywords) = []
    ∧ (tokenize "well you know sort of").filter (fun w => w ∈ filler_words) = [] := by
  refine ⟨?_, ?_, by decide, by decide, by decide⟩
  · intro t
    apply congrArg List.length
    apply List.filter_congr
    intro w hw
    simp only [decide_eq_decide]
    constructor
    · intro hmem
      simp only [filler_words, List.mem_cons, List.not_mem_nil, or_false] at hmem
      rcases hmem with rfl | rfl | rfl | rfl | rfl | rfl | rfl
      · decide
      · decide
      · decide
      · decide
      · exact absurd rfl (token_ne_of_space hw "you know" (by decide))
      · exact absurd rfl (token_ne_of_space hw "sort of" (by decide))
      · exact absurd rfl (token_ne_of_space hw "kind of" (by decide))
    · intro hmem
      simp only [List.mem_cons, List.not_mem_nil, or_false] at hmem
      rcases hmem with rfl | rfl | rfl | rfl
      · decide
      · decide
      · decide
      · decide
  · intro t
    apply List.filter_congr
    intro w hw
    simp only [decide_eq_decide]
    constructor
    · intro hmem
      simp only [crisis_keywords, List.mem_cons, List.not_mem_nil, or_false] at hmem
      rcases hmem with rfl | rfl | rfl | rfl | rfl | rfl
      · decide
      · exact absurd rfl (token_ne_of_space hw "kill myself" (by decide))
      · exact absurd rfl (token_ne_of_space hw "end it" (by decide))
      · decide
      · decide
      · exact absurd rfl (token_ne_of_space hw "give up" (by decide))
    · intro hmem
      simp only [List.mem_cons, List.not_mem_nil, or_false] at hmem
      rcases hmem with rfl | rfl | rfl
      · decide
      · decide
      · decide


/-! ## Lemmas for the stepwise slicing -/

lemma gsm_ranges (ps : List (String × VideoResult)) (steps : List ℚ) :
    (generate_stepwise_metrics ps steps).map (fun w => (w.range_start, w.range_end))
      = steps.zip (steps.tail ++ [999999]) := by
  induction steps with
  | nil => rfl
  | cons t rest ih =>
    cases rest with
    | nil => rfl
    | cons t2 rest2 =>
      simp only [generate_stepwise_metrics, List.map_cons, List.tail_cons,
        List.cons_append, List.zip_cons_cons]
      simp only [List.tail_cons] at ih
      exact congrArg _ ih

lemma mem_foldl_append {α β : Type} (f : β → List α) (ps : List β) :
    ∀ (acc : List α) (x : α),
      x ∈ ps.foldl (fun a p => a ++ f p) acc ↔ x ∈ acc ∨ ∃ p ∈ ps, x ∈ f p := by
  induction ps with
  | nil =>
    intro acc x
    simp
  | cons p rest ih =>
    intro acc x
    simp only [List.foldl_cons]
    rw [ih]
    simp only [List.mem_append, List.exists_mem_cons_iff]
    tauto

lemma mem_filteredSamples (ps : List (String × VideoResult)) (a b : ℚ) (s : EmotionSample) :
    s ∈ filteredSamples ps a b
      ↔ ((∃ p ∈ ps, s ∈ p.2.emotions) ∧ a ≤ s.time ∧ s.time < b) := by
  unfold filteredSamples
  rw [mem_foldl_append]
  simp only [List.not_mem_nil, false_or, List.mem_filter, decide_eq_true_eq]
  constructor
  · rintro ⟨p, hps, hmem, hpred⟩
    exact ⟨⟨p, hps, hmem⟩, hpred⟩
  · rintro ⟨⟨p, hps, hmem⟩, hpred⟩
    exact ⟨p, hps, hmem, hpred⟩

lemma bump_snd_sum (m : List (String × ℕ)) (e : String) :
    ((bump m e).map Prod.snd).sum = (m.map Prod.snd).sum + 1 := by
  induction m with
  | nil => rfl
  | cons hd t ih =>
    obtain ⟨k, v⟩ := hd
    by_cases h : k = e
    · simp only [bump, if_pos h, List.map_cons, List.sum_cons]
      omega
    · simp only [bump, if_neg h, List.map_cons, List.sum_cons, ih]
      omega

lemma foldl_bump_snd_sum (es : List String) :
    ∀ m : List (String × ℕ),
      ((es.foldl bump m).map Prod.snd).sum = (m.map Prod.snd).sum + es.length := by
  induction es with
  | nil =>
    intro m
    simp
  | cons e rest ih =>
    intro m
    simp only [List.foldl_cons, List.length_cons]
    rw [ih (bump m e), bump_snd_sum]
    omega

lemma buildCounts_snd_sum (es : List String) :
    ((buildCounts es).map Prod.snd).sum = es.length := by
  have h := foldl_bump_snd_sum es []
  simpa [buildCounts] using h

lemma sum_map_div_total (l : List (String × ℕ)) (T : ℚ) :
    (l.map (fun p => ((p.2 : ℚ) / T) * 100)).sum
      = (((l.map Prod.snd).sum : ℕ) : ℚ) / T * 100 := by
  induction l with
  | nil => simp
  | cons hd t ih =>
    simp only [List.map_cons, List.sum_cons, ih]
    push_cast
    ring

lemma sum_map_round2_close (l : List ℚ) :
    |(l.map round2).sum - l.sum| ≤ (l.length : ℚ) / 200 := by
  induction l with
  | nil => simp
  | cons x t ih =>
    simp only [List.map_cons, List.sum_cons, List.length_cons]
    have h1 := abs_round2_sub x
    have h2 : |round2 x + (t.map round2).sum - (x + t.sum)|
        ≤ |round2 x - x| + |(t.map round2).sum - t.sum| := by
      have : round2 x + (t.map round2).sum - (x + t.sum)
          = (round2 x - x) + ((t.map round2).sum - t.sum) := by ring
      rw [this]
      exact abs_add _ _
    have h3 : ((t.length + 1 : ℕ) : ℚ) / 200 = 1/200 + (t.length : ℚ)/200 := by
      push_cast
      ring
    rw [h3]
    linarith


/-- Claim C5 counterexample: a non-empty window holding three samples
with three distinct emotions reports a distribution whose entries are
each rounded to 33.33, so the reported distribution sums to 99.99, not
100% as the claim asserts for every non-empty window. -/
theorem c5_counterexample :
    (((extract_metrics_for_timerange
        [("A", ⟨[⟨1, "angry", []⟩, ⟨2, "happy", []⟩, ⟨3, "sad", []⟩], [], 0, 0, 0, [], 0, 0⟩)]
        0 10).emotion_distribution.map Prod.snd).sum) = 9999/100
    ∧ ¬((((extract_metrics_for_timerange
        [("A", ⟨[⟨1, "angry", []⟩, ⟨2, "happy", []⟩, ⟨3, "sad", []⟩], [], 0, 0, 0, [], 0, 0⟩)]
        0 10).emotion_distribution.map Prod.snd).sum) = 100) := by
  have hround : round2 ((1 : ℚ) / 3 * 100) = 3333/100 := by
    rw [round2_eq_of ((1 : ℚ) / 3 * 100) 3333 (by norm_num) (by norm_num)]
    norm_num
  have hround2 : round2 ((100 : ℚ) / 3) = 3333/100 := by
    rw [round2_eq_of ((100 : ℚ) / 3) 3333 (by norm_num) (by norm_num)]
    norm_num
  have hbc : buildCounts ["angry", "happy", "sad"]
      = [("angry", 1), ("happy", 1), ("sad", 1)] := by decide
  have hfs : filteredSamples
      [("A", ⟨[⟨1, "angry", []⟩, ⟨2, "happy", []⟩, ⟨3, "sad", []⟩], [], 0, 0, 0, [], 0, 0⟩)]
      0 10 = [⟨1, "angry", []⟩, ⟨2, "happy", []⟩, ⟨3, "sad", []⟩] := by
    norm_num [filteredSamples, List.filter]
  have h : (((extract_metrics_for_timerange
      [("A", ⟨[⟨1, "angry", []⟩, ⟨2, "happy", []⟩, ⟨3, "sad", []⟩], [], 0, 0, 0, [], 0, 0⟩)]
      0 10).emotion_distribution.map Prod.snd).sum) = 9999/100 := by
    norm_num [extract_metrics_for_timerange, hfs, hbc, hround, hround2]
  exact ⟨h, by rw [h]; norm_num⟩

/-- Claim C5 (amended): stepwise slicing assigns window i the range
from step i to step i+1 with the last window ending at the sentinel
999999 rather than the true recording end; a sample contributes to a
window exactly when its participant timeline contains it and
`start <= time < end`; each non-empty window distribution sums to
exactly 100% before the per-entry rounding to two decimals, and the
reported (rounded) sum differs from 100 by at most 0.005 per distinct
emotion; an empty window reports an empty distribution, dominant
emotion "neutral" and sample count 0; the samples at times 1, 5, 9, 14
with boundaries [0, 10] place 1, 5, 9 in the first window and 14 in
the second. -/
theorem c5_stepwise_slicing :
    (∀ (ps : List (String × VideoResult)) (steps : List ℚ),
      (generate_stepwise_metrics ps steps).map (fun w => (w.range_start, w.range_end))
        = steps.zip (steps.tail ++ [999999]))
    ∧ (∀ (ps : List (String × VideoResult)) (a b : ℚ) (s : EmotionSample),
      s ∈ filteredSamples ps a b
        ↔ ((∃ p ∈ ps, s ∈ p.2.emotions) ∧ a ≤ s.time ∧ s.time < b))
    ∧ (∀ (ps : List (String × VideoResult)) (a b : ℚ),
      filteredSamples ps a b ≠ [] →
      ((buildCounts ((filteredSamples ps a b).map (fun s => s.emotion))).map
          (fun p => ((p.2 : ℚ) / ((filteredSamples ps a b).length : ℚ)) * 100)).sum = 100
      ∧ |(((extract_metrics_for_timerange ps a b).emotion_distribution.map Prod.snd).sum) - 100|
          ≤ ((buildCounts ((filteredSamples ps a b).map (fun s => s.emotion))).length : ℚ) / 200)
    ∧ (∀ (ps : List (String × VideoResult)) (a b : ℚ),
      filteredSamples ps a b = [] →
      (extract_metrics_for_timerange ps a b).emotion_distribution = []
      ∧ (extract_metrics_for_timerange ps a b).dominant_emotion = "neutral"
      ∧ (extract_metrics_for_timerange ps a b).sample_count = 0)
    ∧ ((filteredSamples
          [("A", ⟨[⟨1, "happy", []⟩, ⟨5, "happy", []⟩, ⟨9, "happy", []⟩, ⟨14, "happy", []⟩],
            [], 0, 0, 0, [], 0, 0⟩)] 0 10)
        = [⟨1, "happy", []⟩, ⟨5, "happy", []⟩, ⟨9, "happy", []⟩]
      ∧ (filteredSamples
          [("A", ⟨[⟨1, "happy", []⟩, ⟨5, "happy", []⟩, ⟨9, "happy", []⟩, ⟨14, "happy", []⟩],
            [], 0, 0, 0, [], 0, 0⟩)] 10 999999)
        = [⟨14, "happy", []⟩]
      ∧ (generate_stepwise_metrics
          [("A", ⟨[⟨1, "happy", []⟩, ⟨5, "happy", []⟩, ⟨9, "happy", []⟩, ⟨14, "happy", []⟩],
            [], 0, 0, 0, [], 0, 0⟩)] [0, 10]).map
            (fun w => (w.range_start, w.range_end, w.metrics.sample_count))
        = [(0, 10, 3), (10, 999999, 1)]
      ∧ (extract_metrics_for_timerange
          [("A", ⟨[⟨1, "happy", []⟩, ⟨5, "happy", []⟩, ⟨9, "happy", []⟩, ⟨14, "happy", []⟩],
            [], 0, 0, 0, [], 0, 0⟩)] 0 10).emotion_distribution
        = [("happy", 100)]) := by
  refine ⟨gsm_ranges, mem_filteredSamples, ?_, ?_, ?_, ?_, ?_, ?_⟩
  · intro ps a b hne
    have hlen : 0 < (filteredSamples ps a b).length := List.length_pos.2 hne
    have htot : ((buildCounts ((filteredSamples ps a b).map (fun s => s.emotion))).map
        Prod.snd).sum = (filteredSamples ps a b).length := by
      rw [buildCounts_snd_sum, List.length_map]
    have hcast : ((filteredSamples ps a b).length : ℚ) ≠ 0 := by
      exact_mod_cast Nat.pos_iff_ne_zero.1 hlen
    have hsum100 : ((buildCounts ((filteredSamples ps a b).map (fun s => s.emotion))).map
        (fun p => ((p.2 : ℚ) / ((filteredSamples ps a b).length : ℚ)) * 100)).sum = 100 := by
      rw [sum_map_div_total, htot]
      field_simp
    refine ⟨hsum100, ?_⟩
    have h0 : 0 < ((buildCounts ((filteredSamples ps a b).map (fun s => s.emotion))).map
        Prod.snd).sum := by
      rw [htot]
      exact hlen
    simp only [extract_metrics_for_timerange]
    rw [if_pos h0, htot, List.map_map]
    have hmm : ((buildCounts ((filteredSamples ps a b).map (fun s => s.emotion))).map
          (Prod.snd ∘ fun p =>
            (p.1, round2 ((p.2 : ℚ) / (((filteredSamples ps a b).length : ℕ) : ℚ) * 100))))
        = ((buildCounts ((filteredSamples ps a b).map (fun s => s.emotion))).map
            (fun p => ((p.2 : ℚ) / (((filteredSamples ps a b).length : ℕ) : ℚ)) * 100)).map
              round2 := by
      rw [List.map_map]
      rfl
    rw [hmm]
    have hclose := sum_map_round2_close
      ((buildCounts ((filteredSamples ps a b).map (fun s => s.emotion))).map
        (fun p => ((p.2 : ℚ) / (((filteredSamples ps a b).length : ℕ) : ℚ)) * 100))
    rw [List.length_map, hsum100] at hclose
    exact hclose
  · intro ps a b h
    refine ⟨?_, ?_, ?_⟩
    · simp [extract_metrics_for_timerange, h, buildCounts]
    · simp [extract_metrics_for_timerange, h, buildCounts]
    · simp [extract_metrics_for_timerange, h]
  · norm_num [filteredSamples, List.filter]
  · norm_num [filteredSamples, List.filter]
  · norm_num [generate_stepwise_metrics, extract_metrics_for_timerange, filteredSamples,
      List.filter]
  · have hbc : buildCounts ["happy", "happy", "happy"] = [("happy", 3)] := by decide
    have hfs : filteredSamples
        [("A", ⟨[⟨1, "happy", []⟩, ⟨5, "happy", []⟩, ⟨9, "happy", []⟩, ⟨14, "happy", []⟩],
          [], 0, 0, 0, [], 0, 0⟩)] 0 10
        = [⟨1, "happy", []⟩, ⟨5, "happy", []⟩, ⟨9, "happy", []⟩] := by
      norm_num [filteredSamples, List.filter]
    norm_num [extract_metrics_for_timerange, hfs, hbc, round2_hundred]

/-- Claim C5 witness: the exact-sum and rounding-bound facts applied to
the concrete four-sample window (non-empty hypothesis discharged), and
the empty-window facts applied to the empty participant list. -/
theorem c5_stepwise_slicing_witness :
    ((buildCounts ((filteredSamples
        [("A", ⟨[⟨1, "happy", []⟩, ⟨5, "happy", []⟩, ⟨9, "happy", []⟩, ⟨14, "happy", []⟩],
          [], 0, 0, 0, [], 0, 0⟩)] 0 10).map (fun s => s.emotion))).map
        (fun p => ((p.2 : ℚ) / (((filteredSamples
          [("A", ⟨[⟨1, "happy", []⟩, ⟨5, "happy", []⟩, ⟨9, "happy", []⟩, ⟨14, "happy", []⟩],
            [], 0, 0, 0, [], 0, 0⟩)] 0 10).length : ℕ) : ℚ)) * 100)).sum = 100
    ∧ (extract_metrics_for_timerange ([] : List (String × VideoResult)) 0 1).dominant_emotion
        = "neutral" := by
  constructor
  · have hne : filteredSamples
        [("A", ⟨[⟨1, "happy", []⟩, ⟨5, "happy", []⟩, ⟨9, "happy", []⟩, ⟨14, "happy", []⟩],
          [], 0, 0, 0, [], 0, 0⟩)] 0 10 ≠ [] := by
      have hfs : filteredSamples
          [("A", ⟨[⟨1, "happy", []⟩, ⟨5, "happy", []⟩, ⟨9, "happy", []⟩, ⟨14, "happy", []⟩],
            [], 0, 0, 0, [], 0, 0⟩)] 0 10
          = [⟨1, "happy", []⟩, ⟨5, "happy", []⟩, ⟨9, "happy", []⟩] := by
        norm_num [filteredSamples, List.filter]
      rw [hfs]
      simp
    exact (c5_stepwise_slicing.2.2.1
      [("A", ⟨[⟨1, "happy", []⟩, ⟨5, "happy", []⟩, ⟨9, "happy", []⟩, ⟨14, "happy", []⟩],
        [], 0, 0, 0, [], 0, 0⟩)] 0 10 hne).1
  · exact (c5_stepwise_slicing.2.2.2.1 [] 0 1 rfl).2.1

end Avc
